import Mathlib

/-!
Verification of the EchoCart conversational co-shopper pipeline.

This file embeds, in Lean, the parts of the repository that the analysed
properties concern:

* the fallback intent engine of src/app/api/chat/route.ts
  (class FallbackAI: the product catalog, detectIntent, getResponse,
  processMessage);
* the dataset / training-job registry operations and their data model
  (src/db/schema.ts):
  - POST  /api/datasets/[id]/train      (start a training job),
  - PATCH /api/training-jobs/[id]       (progress / terminal callbacks),
  - POST  /api/datasets/[id]/validate   (validation-report ingestion).

Machine numbers are embedded as exact integers: product prices in cents,
ratings in tenths, sustainability scores and progress in hundredths.
JavaScript string operations (toLowerCase, String.prototype.includes and
the regex scan with parseInt used for price extraction) are embedded as
executable functions on character lists.
-/

namespace EchoCart

/-- Substring test: `isPrefixChars needle hay` holds when `needle` is a
prefix of `hay`. -/
def isPrefixChars : List Char → List Char → Bool
  | [], _ => true
  | _ :: _, [] => false
  | a :: as, b :: bs => a == b && isPrefixChars as bs

/-- Embedding of JavaScript `hay.includes(needle)`: substring containment,
with the convention that the empty needle is contained everywhere. -/
def containsSub (hay needle : List Char) : Bool :=
  match hay with
  | [] => needle.isEmpty
  | _ :: t => isPrefixChars needle hay || containsSub t needle

/-- Embedding of `message.toLowerCase()` (ASCII range, which covers every
keyword the classifier tests). -/
def lowerChars (s : String) : List Char := s.data.map Char.toLower

/-- `includes msg kw` embeds `msg.includes(kw)` for a keyword literal. -/
def includes (msg : List Char) (kw : String) : Bool := containsSub msg kw.data

/-- Numeric value of a digit string, as computed by `parseInt` on a run of
decimal digits. -/
def digitsToNat (ds : List Char) : Nat :=
  ds.foldl (fun a c => 10 * a + (c.toNat - 48)) 0

/-- First maximal run of decimal digits in the character list, if any.
This is what the first match of the regex scan for an optional dollar sign
followed by digits captures in group 1. -/
def firstDigitRun : List Char → Option (List Char)
  | [] => none
  | c :: t => if c.isDigit then some (c :: t.takeWhile Char.isDigit) else firstDigitRun t

/-- The price ceiling the classifier extracts: value of the first digit
run, or the constant 100 when the utterance has no digits. -/
def extractedPrice (msg : List Char) : Nat :=
  match firstDigitRun msg with
  | some ds => digitsToNat ds
  | none => 100

/-- A product of the static fallback catalog (field `products` of class
FallbackAI). Prices are in cents, ratings in tenths, sustainability scores
in hundredths. -/
structure Product where
  id : String
  name : String
  description : String
  priceCents : Nat
  ratingTenths : Nat
  sustainabilityPct : Nat
  category : String
  mood : List String
deriving Repr, DecidableEq

/-- Extracted entities of a classified utterance. The source builds plain
object literals; the three fields that ever occur are `mood`, `category`
and `max_price`. -/
structure Entities where
  mood : Option String
  category : Option String
  max_price : Option Nat
deriving Repr, DecidableEq

/-- Entity object with no field set (the `{}` literal of the source). -/
def noEnt : Entities := ⟨none, none, none⟩

/-- Entity object `{ mood: m }`. -/
def moodEnt (m : String) : Entities := ⟨some m, none, none⟩

/-- Entity object `{ category: c }`. -/
def catEnt (c : String) : Entities := ⟨none, some c, none⟩

/-- Entity object `{ max_price: n }`. -/
def priceEnt (n : Nat) : Entities := ⟨none, none, some n⟩

/-- Result of `detectIntent`: an intent tag plus extracted entities. -/
structure IntentResult where
  intent : String
  entities : Entities
deriving Repr, DecidableEq

/-- A ranked recommendation item as mapped into the response payload. -/
structure RecItem where
  id : String
  name : String
  description : String
  priceCents : Nat
  ratingTenths : Nat
  sustainabilityPct : Nat
  relevancePct : Nat
deriving Repr, DecidableEq

/-- One response message of the fallback engine: text plus products. -/
structure ChatMsg where
  text : String
  products : List RecItem
deriving Repr, DecidableEq

/-- Projection of a catalog product into a response item at a given
relevance score (in hundredths). -/
def toRecItem (rel : Nat) (p : Product) : RecItem :=
  ⟨p.id, p.name, p.description, p.priceCents, p.ratingTenths, p.sustainabilityPct, rel⟩

/-- Stable ascending sort by a numeric key: an element is placed before
the first element whose key is not smaller, matching the stable
`Array.sort` of the source under an ascending numeric comparator. -/
def sortAscBy (key : Product → Nat) (l : List Product) : List Product :=
  List.insertionSort (fun a b => key a ≤ key b) l

/-- Stable descending sort by a numeric key, matching the stable
`Array.sort` of the source under a descending numeric comparator. -/
def sortDescBy (key : Product → Nat) (l : List Product) : List Product :=
  List.insertionSort (fun a b => key b ≤ key a) l

namespace FallbackAI

/-- The static in-memory catalog of class FallbackAI, in declaration
order. -/
def products : List Product :=
  [ ⟨"prod_1", "Cozy Organic Cotton Hoodie",
      "Ultra-soft organic cotton hoodie perfect for relaxing",
      4999, 48, 92, "clothing", ["tired", "lazy", "stressed"]⟩,
    ⟨"prod_2", "Eco-Friendly Yoga Mat",
      "Sustainable cork and natural rubber yoga mat",
      7999, 49, 95, "fitness", ["stressed", "adventurous"]⟩,
    ⟨"prod_3", "Bamboo Loungewear Set",
      "Breathable bamboo pajama set for ultimate comfort",
      6499, 47, 88, "clothing", ["tired", "lazy"]⟩,
    ⟨"prod_4", "Wireless Noise-Cancelling Headphones",
      "Premium sound quality with eco-friendly packaging",
      19999, 46, 73, "electronics", ["excited", "adventurous"]⟩,
    ⟨"prod_5", "Recycled Denim Jacket",
      "Stylish jacket made from 100% recycled denim",
      8999, 48, 91, "clothing", ["excited", "adventurous"]⟩,
    ⟨"prod_6", "Aromatherapy Essential Oil Set",
      "Natural essential oils for relaxation and wellness",
      3499, 49, 96, "wellness", ["stressed", "tired"]⟩,
    ⟨"prod_7", "Sustainable Running Shoes",
      "High-performance shoes made from recycled ocean plastic",
      12999, 47, 89, "footwear", ["adventurous", "excited"]⟩,
    ⟨"prod_8", "Organic Herbal Tea Collection",
      "Premium loose-leaf teas for calm and comfort",
      2499, 48, 94, "food", ["tired", "stressed", "lazy"]⟩ ]

/-- Condition of the mood-tired rule. -/
def moodTiredKw (msg : List Char) : Bool :=
  includes msg "tired" || includes msg "exhausted" || includes msg "sleepy"

/-- Condition of the mood-stressed rule. -/
def moodStressedKw (msg : List Char) : Bool :=
  includes msg "stressed" || includes msg "anxiety" || includes msg "overwhelmed"

/-- Condition of the mood-excited rule. -/
def moodExcitedKw (msg : List Char) : Bool :=
  includes msg "excited" || includes msg "energetic" || includes msg "party"

/-- Condition of the mood-lazy rule. -/
def moodLazyKw (msg : List Char) : Bool :=
  includes msg "lazy" || includes msg "chill" || includes msg "relax"

/-- Condition of the mood-adventurous rule. -/
def moodAdventurousKw (msg : List Char) : Bool :=
  includes msg "adventurous" || includes msg "active" || includes msg "outdoors"

/-- Condition of the footwear product-search rule. -/
def footwearKw (msg : List Char) : Bool :=
  includes msg "shoes" || includes msg "sneakers" || includes msg "footwear"

/-- Condition of the clothing product-search rule. -/
def clothingKw (msg : List Char) : Bool :=
  includes msg "clothes" || includes msg "clothing" || includes msg "outfit"

/-- Condition of the electronics product-search rule. -/
def electronicsKw (msg : List Char) : Bool :=
  includes msg "electronics" || includes msg "headphones" || includes msg "gadget"

/-- Condition of the sustainability rule. -/
def sustainabilityKw (msg : List Char) : Bool :=
  includes msg "eco" || includes msg "sustainable" || includes msg "green" || includes msg "environment"

/-- Condition of the price-filter rule. -/
def priceFilterKw (msg : List Char) : Bool :=
  includes msg "under" || includes msg "below" || includes msg "cheap" || includes msg "budget"

/-- Condition of the order-tracking rule. -/
def trackOrderKw (msg : List Char) : Bool :=
  includes msg "track" || includes msg "order" || includes msg "delivery" || includes msg "shipping"

/-- Condition of the greeting rule. -/
def greetKw (msg : List Char) : Bool :=
  includes msg "hello" || includes msg "hi" || includes msg "hey" || includes msg "start"

/-- Condition of the help rule. -/
def helpKw (msg : List Char) : Bool :=
  includes msg "help" || includes msg "what can you do"

/-- Embedding of `FallbackAI.detectIntent` on the already lowercased
character list: the ordered first-match-wins keyword rule chain, each
named condition being one keyword disjunction of the source. -/
def detectIntentCore (msg : List Char) : IntentResult :=
  if moodTiredKw msg then ⟨"mood_tired", moodEnt "tired"⟩
  else if moodStressedKw msg then ⟨"mood_stressed", moodEnt "stressed"⟩
  else if moodExcitedKw msg then ⟨"mood_excited", moodEnt "excited"⟩
  else if moodLazyKw msg then ⟨"mood_lazy", moodEnt "lazy"⟩
  else if moodAdventurousKw msg then ⟨"mood_adventurous", moodEnt "adventurous"⟩
  else if footwearKw msg then ⟨"product_search", catEnt "footwear"⟩
  else if clothingKw msg then ⟨"product_search", catEnt "clothing"⟩
  else if electronicsKw msg then ⟨"product_search", catEnt "electronics"⟩
  else if sustainabilityKw msg then ⟨"sustainability", noEnt⟩
  else if priceFilterKw msg then ⟨"price_filter", priceEnt (extractedPrice msg)⟩
  else if trackOrderKw msg then ⟨"track_order", noEnt⟩
  else if greetKw msg then ⟨"greet", noEnt⟩
  else if helpKw msg then ⟨"help", noEnt⟩
  else ⟨"general", noEnt⟩

/-- Embedding of `FallbackAI.detectIntent(message)`: lowercase the message
and run the rule chain. -/
def detectIntent (message : String) : IntentResult :=
  detectIntentCore (lowerChars message)

/-- Response text of the greeting branch. -/
def greetText : String :=
  "Hey there! 👋 I\x27m your EchoCart AI assistant. I can help you find products based on your mood, track orders, and discover sustainable options.\n\nTry saying:\n• \"I\x27m tired, show me cozy clothes\"\n• \"Eco-friendly products under $100\"\n• \"Track my order\"\n• \"Feeling excited, need outfit ideas\""

/-- Response text of the mood-tired branch. -/
def tiredText : String :=
  "I hear you! 😌 When you\x27re feeling tired, comfort is key. Here are some cozy picks perfect for relaxing:"

/-- Response text of the mood-stressed branch. -/
def stressedText : String :=
  "Take a deep breath 🌿 Let me help you find some calming essentials to ease your mind:"

/-- Response text of the mood-excited branch. -/
def excitedText : String :=
  "Love the energy! ⚡ Here are some exciting picks to match your vibe:"

/-- Response text of the mood-lazy branch. -/
def lazyText : String :=
  "Perfect day for lounging! 🛋️ Check out these ultra-comfy options:"

/-- Response text of the mood-adventurous branch. -/
def adventurousText : String :=
  "Adventure awaits! 🌍 Here are some picks to fuel your active lifestyle:"

/-- Response text of the sustainability branch. -/
def susText : String :=
  "🌱 Love your commitment to sustainability! Here are our top eco-friendly products with 85%+ sustainability scores:"

/-- Response text of the order-tracking branch. -/
def trackText : String :=
  "📦 Order Tracking:\n\nOrder #EC-2024-1234\nStatus: Out for Delivery\nExpected: Today by 6:00 PM\n\n🚚 Your package is currently 2 stops away! Our AI predicts it will arrive between 5:15 PM - 5:45 PM based on current traffic patterns.\n\nContents:\n• Organic Cotton Hoodie (Grey, M)\n• Eco-Friendly Yoga Mat\n\nYou\x27ll receive a notification when it\x27s delivered!"

/-- Response text of the help branch. -/
def helpText : String :=
  "🤖 Here\x27s what I can do for you:\n\n💭 **Emotion-Aware Shopping**\nTell me how you\x27re feeling, and I\x27ll recommend products that match your mood.\n\n🌿 **Sustainability Focus**\nFind eco-friendly products with high sustainability scores.\n\n💰 **Price Filtering**\nSearch within your budget (e.g., \"under $50\").\n\n📦 **Order Tracking**\nGet real-time updates on your deliveries.\n\n🔍 **Smart Search**\nSearch by category, mood, or specific items.\n\nTry: \"I\x27m stressed, show me calming products\" or \"Eco-friendly shoes under $150\""

/-- Embedding of `FallbackAI.getResponse(intent, entities, message)`. The
source shuffles the catalog in the default branch with `Array.sort` under
a `Math.random` comparator; that randomness source is embedded as the
explicit permutation parameter `shuffle`, consumed only by the default
branch. The `||` defaults of the source (`entities.category || ...` and
`entities.max_price || 100`) are embedded with their JavaScript falsiness
semantics: an absent field defaults, and a `max_price` of 0 — falsy in
JavaScript — defaults as well. -/
def getResponse (intent : String) (entities : Entities) (message : String)
    (shuffle : List Product → List Product) : List ChatMsg :=
  if intent = "greet" then
    [⟨greetText, []⟩]
  else if intent = "mood_tired" then
    let tiredProducts := (products.filter (fun p => p.mood.contains "tired")).take 3
    [⟨tiredText, tiredProducts.map (toRecItem 95)⟩]
  else if intent = "mood_stressed" then
    let stressedProducts := (products.filter (fun p => p.mood.contains "stressed")).take 3
    [⟨stressedText, stressedProducts.map (toRecItem 93)⟩]
  else if intent = "mood_excited" then
    let excitedProducts := (products.filter (fun p => p.mood.contains "excited")).take 3
    [⟨excitedText, excitedProducts.map (toRecItem 94)⟩]
  else if intent = "mood_lazy" then
    let lazyProducts := (products.filter (fun p => p.mood.contains "lazy")).take 3
    [⟨lazyText, lazyProducts.map (toRecItem 96)⟩]
  else if intent = "mood_adventurous" then
    let adventurousProducts := (products.filter (fun p => p.mood.contains "adventurous")).take 3
    [⟨adventurousText, adventurousProducts.map (toRecItem 92)⟩]
  else if intent = "product_search" then
    let category := entities.category.getD "clothing"
    let categoryProducts := (products.filter (fun p => p.category == category)).take 3
    [⟨"Great choice! Here are some " ++ category ++ " options for you:",
      categoryProducts.map (toRecItem 88)⟩]
  else if intent = "sustainability" then
    let ecoProducts :=
      (sortDescBy (fun p => p.sustainabilityPct)
        (products.filter (fun p => 85 < p.sustainabilityPct))).take 3
    [⟨susText, ecoProducts.map (toRecItem 97)⟩]
  else if intent = "price_filter" then
    let maxPrice := match entities.max_price with
      | some n => if n = 0 then 100 else n
      | none => 100
    let affordableProducts :=
      (sortAscBy (fun p => p.priceCents)
        (products.filter (fun p => p.priceCents ≤ maxPrice * 100))).take 3
    [⟨"💰 Here are some great options under $" ++ toString maxPrice ++ ":",
      affordableProducts.map (toRecItem 89)⟩]
  else if intent = "track_order" then
    [⟨trackText, []⟩]
  else if intent = "help" then
    [⟨helpText, []⟩]
  else
    let randomProducts := (shuffle products).take 3
    [⟨"Here are some popular products you might like:",
      randomProducts.map (toRecItem 85)⟩]

/-- Embedding of `FallbackAI.processMessage(message)`: classify, then
build the response. -/
def processMessage (message : String) (shuffle : List Product → List Product) :
    List ChatMsg :=
  let r := detectIntent message
  getResponse r.intent r.entities message shuffle

end FallbackAI

/-- The validation report object consumed by POST /api/datasets/[id]/validate.
A value of `none` encodes a field absent from the JSON body; `errors` is
`some l` exactly when the body carries an array of strings under `errors`.
The source persists the report JSON-encoded in a text column; the
embedding stores the structured value, whose content no analysed property
inspects. -/
structure ValidationReport where
  errors : Option (List String)
  isValid : Option Bool
  success : Option Bool
  status : Option String
deriving Repr, DecidableEq

/-- A dataset record (src/db/schema.ts, table `datasets`). -/
structure Dataset where
  id : Nat
  workspaceId : Nat
  name : String
  filename : String
  fileUrl : String
  format : String
  status : String
  validationReport : Option ValidationReport
  createdBy : Nat
  createdAt : String
  updatedAt : String
deriving Repr, DecidableEq

/-- A training-job record, with exactly the columns of the SQL schema
(src/db/schema.ts, table `training_jobs`, and the drizzle migration): id,
workspace_id, dataset_id, status, log, model_path, created_at,
finished_at. The table has no progress column — the progress value the
remote trainer delivers in PATCH bodies is never persisted. -/
structure TrainingJob where
  id : Nat
  workspaceId : Nat
  datasetId : Nat
  status : String
  log : Option String
  modelPath : Option String
  createdAt : String
  finishedAt : Option String
deriving Repr, DecidableEq

/-- The persistent registry state: the datasets and training_jobs tables,
plus the auto-increment counter that numbers new job rows. -/
structure SystemState where
  datasets : List Dataset
  jobs : List TrainingJob
  nextJobId : Nat
deriving Repr, DecidableEq

/-- Row lookup by dataset id (`select ... where eq(datasets.id, i) limit 1`). -/
def findDataset (s : SystemState) (i : Nat) : Option Dataset :=
  s.datasets.find? (fun d => d.id == i)

/-- Row lookup by job id (`select ... where eq(trainingJobs.id, i) limit 1`). -/
def findJob (s : SystemState) (i : Nat) : Option TrainingJob :=
  s.jobs.find? (fun j => j.id == i)

/-- The log line POST /api/datasets/[id]/train writes at job creation. -/
def creationLog : String := "Training job created, waiting to start...\n"

/-- Response of POST /api/datasets/[id]/train: 201 with the created job,
or 404 when the dataset does not exist. -/
inductive StartResult where
  | created (job : TrainingJob)
  | notFound
deriving Repr, DecidableEq

/-- Outcome of the single fire-and-forget dispatch of the start request to
the remote trainer backend. -/
inductive DispatchOutcome where
  | delivered
  | transportError (message : String)
deriving Repr, DecidableEq

/-- The job row POST /api/datasets/[id]/train inserts for dataset `i` in
state `s`: status `queued`, the fixed creation log, no model path, no
finish timestamp. -/
def newJobFor (s : SystemState) (i wsId : Nat) (now : String) : TrainingJob :=
  { id := s.nextJobId, workspaceId := wsId, datasetId := i,
    status := "queued", log := some creationLog,
    modelPath := none, createdAt := now, finishedAt := none }

/-- Embedding of POST /api/datasets/[id]/train
(src/app/api/datasets/[id]/train/route.ts). The route looks the dataset
up, returns 404 when absent, and otherwise unconditionally inserts a job
in status `queued`, sets the dataset status to `training`, and dispatches
the start request to the remote trainer without awaiting it; a rejected
dispatch promise is routed to `console.error` and nothing else, so the
returned state and response do not depend on `outcome`. -/
def startTraining (s : SystemState) (datasetId : Nat) (now : String)
    (outcome : DispatchOutcome) : SystemState × StartResult :=
  match findDataset s datasetId with
  | none => (s, .notFound)
  | some d =>
    ({ s with
        jobs := s.jobs ++ [newJobFor s datasetId d.workspaceId now],
        nextJobId := s.nextJobId + 1,
        datasets := s.datasets.map (fun x =>
          if x.id == datasetId then { x with status := "training", updatedAt := now }
          else x) },
      .created (newJobFor s datasetId d.workspaceId now))

/-- Request body of PATCH /api/training-jobs/[id]. A value of `none`
encodes a field absent from the JSON body (JavaScript `undefined`), which
the drizzle update skips; `finishedAt` is special-cased in the route as
the body value or null, an expression that is never undefined, so that
column is always written. The body may carry a `progress` value (the
remote-trainer callbacks do), in hundredths here. -/
structure JobPatch where
  status : Option String
  progress : Option Nat
  log : Option String
  modelPath : Option String
  finishedAt : Option String
deriving Repr, DecidableEq

/-- Field-wise effect of the PATCH update on one job row: every present
body field whose name is a column overwrites that column, an absent field
keeps the stored value, and `finishedAt` is always overwritten with the
body value or null. The body key `progress` matches no column of the
`training_jobs` table, and the drizzle update is built from the table
columns, so that key is silently dropped: the delivered progress value is
never stored. No guard of any kind is applied: no terminal-status check,
no consistency check between status, modelPath and finishedAt. -/
def applyJobPatch (j : TrainingJob) (b : JobPatch) : TrainingJob :=
  { j with
    status := b.status.getD j.status,
    log := match b.log with | some l => some l | none => j.log,
    modelPath := match b.modelPath with | some m => some m | none => j.modelPath,
    finishedAt := b.finishedAt }

/-- Embedding of PATCH /api/training-jobs/[id], the ingress through which
the remote trainer reports progress and terminal status: update the rows
with the given id and return the updated row, or 404 (`none`) when no row
matched. The route never reads or writes the datasets table. -/
def patchTrainingJob (s : SystemState) (jobId : Nat) (b : JobPatch) :
    SystemState × Option TrainingJob :=
  match findJob s jobId with
  | none => (s, none)
  | some j =>
    ({ s with
        jobs := s.jobs.map (fun x => if x.id == jobId then applyJobPatch x b else x) },
      some (applyJobPatch j b))

/-- Status string computed by POST /api/datasets/[id]/validate from the
validation report: any of the recognised failure patterns yields
`invalid`, otherwise `valid`. -/
def computeValidationStatus (r : ValidationReport) : String :=
  if (match r.errors with | some l => !l.isEmpty | none => false) then "invalid"
  else if r.isValid == some false then "invalid"
  else if r.success == some false then "invalid"
  else if r.status == some "invalid" || r.status == some "failed" || r.status == some "error" then
    "invalid"
  else "valid"

/-- A dataset row after the validate route stored a report on it. -/
def validatedRow (x : Dataset) (r : ValidationReport) (now : String) : Dataset :=
  { x with
    status := computeValidationStatus r,
    validationReport := some r,
    updatedAt := now }

/-- Embedding of POST /api/datasets/[id]/validate: store the report and
the computed status on the dataset; 404 (`none`) when the dataset does
not exist. Training jobs are untouched. -/
def validateDataset (s : SystemState) (datasetId : Nat) (r : ValidationReport)
    (now : String) : SystemState × Option Dataset :=
  match findDataset s datasetId with
  | none => (s, none)
  | some d =>
    ({ s with
        datasets := s.datasets.map (fun x =>
          if x.id == datasetId then validatedRow x r now else x) },
      some (validatedRow d r now))

/-- The repository constant VALID_STATUSES of
src/app/api/datasets/[id]/route.ts: the dataset statuses its PATCH and
PUT handlers accept. -/
def VALID_STATUSES : List String :=
  ["uploaded", "validated", "error", "training", "trained"]

/-- Modelled from the spec: the dataset lifecycle status enum of the data
model (section 3). Used only to compare statuses the code writes against
the claimed enum. -/
def specDatasetStatuses : List String :=
  ["uploaded", "parsing", "validated", "training", "trained", "error"]

/-- The claimed record invariant for training jobs: `finishedAt` is set
iff the status is terminal, and `modelPath` is set iff the status is
`completed`. -/
def jobInvariant (j : TrainingJob) : Prop :=
  (j.finishedAt.isSome ↔ (j.status = "completed" ∨ j.status = "failed"))
  ∧ (j.modelPath.isSome ↔ j.status = "completed")

instance (j : TrainingJob) : Decidable (jobInvariant j) := by
  unfold jobInvariant; infer_instance

/-- External requests reaching the job-mutating surface of the server.
Every route in the repository that writes the training_jobs table is one
of `startTraining` (POST /api/datasets/[id]/train) and `patchJob`
(PATCH /api/training-jobs/[id]); the remaining routes (uploads, dataset
CRUD, auth, chat, read-only job queries) never write a job row. `tick`
models the passage of time with no incoming request: the repository
registers no background timer, scheduler or reaper of any kind (the
workspace UI polling loop only reads the GET endpoints), so a tick
changes nothing. -/
inductive Request where
  | tick
  | startTraining (datasetId : Nat) (now : String) (outcome : DispatchOutcome)
  | patchJob (jobId : Nat) (body : JobPatch)
  | validate (datasetId : Nat) (report : ValidationReport) (now : String)
deriving Repr, DecidableEq

/-- One server step: the state effect of a request. -/
def step (s : SystemState) : Request → SystemState
  | .tick => s
  | .startTraining i now oc => (startTraining s i now oc).1
  | .patchJob jid b => (patchTrainingJob s jid b).1
  | .validate i r now => (validateDataset s i r now).1

/-- Run a sequence of requests against the registry. -/
def run (s : SystemState) (rs : List Request) : SystemState := rs.foldl step s

/-- Whether a request is a job PATCH that delivers status `failed` for
the given job id. -/
def reqSetsFailed (r : Request) (jid : Nat) : Bool :=
  match r with
  | .patchJob j b => j == jid && b.status == some "failed"
  | _ => false

/-- Disjunction, in source order, of the classifier rule conditions
evaluated before the price rule (the mood, category and sustainability
rules). -/
def beforePriceRule (msg : List Char) : Bool :=
  FallbackAI.moodTiredKw msg
  || FallbackAI.moodStressedKw msg
  || FallbackAI.moodExcitedKw msg
  || FallbackAI.moodLazyKw msg
  || FallbackAI.moodAdventurousKw msg
  || FallbackAI.footwearKw msg
  || FallbackAI.clothingKw msg
  || FallbackAI.electronicsKw msg
  || FallbackAI.sustainabilityKw msg

/-- Disjunction of the rule conditions evaluated before the
order-tracking rule. -/
def beforeTrackRule (msg : List Char) : Bool :=
  beforePriceRule msg || FallbackAI.priceFilterKw msg

/-- Disjunction of the rule conditions evaluated before the greeting
rule. -/
def beforeGreetRule (msg : List Char) : Bool :=
  beforeTrackRule msg || FallbackAI.trackOrderKw msg

/-- The price ceiling the recommendation step actually uses, with the
JavaScript falsiness default: an extracted ceiling of 0 falls back to the
constant 100, like an absent one. -/
def effectiveCeiling (n : Nat) : Nat := if n = 0 then 100 else n

/- Concrete registry fixtures used by the counterexamples and witnesses
below. -/

/-- A dataset fixture in status `uploaded` (not yet validated). -/
def dsUploaded : Dataset :=
  { id := 1, workspaceId := 7, name := "support-intents",
    filename := "support.csv", fileUrl := "/uploads/support.csv",
    format := "csv", status := "uploaded", validationReport := none,
    createdBy := 3, createdAt := "2026-01-01T00:00:00.000Z",
    updatedAt := "2026-01-01T00:00:00.000Z" }

/-- The same dataset mid-pipeline, in status `training`. -/
def dsTraining : Dataset := { dsUploaded with status := "training" }

/-- The same dataset in status `validated`. -/
def dsValidated : Dataset := { dsUploaded with status := "validated" }

/-- An active (queued) job for dataset 1. -/
def jobQueued : TrainingJob :=
  { id := 10, workspaceId := 7, datasetId := 1, status := "queued",
    log := some creationLog, modelPath := none,
    createdAt := "2026-01-01T00:01:00.000Z", finishedAt := none }

/-- A job for dataset 1 in status `training`, mid-run (its log records
epoch 4 of 5; no progress is stored, the table has no such column). -/
def jobTraining : TrainingJob :=
  { jobQueued with
    status := "training",
    log := some "epoch 4/5\n" }

/-- A job for dataset 1 that is already terminal (`completed`). -/
def jobCompleted : TrainingJob :=
  { jobQueued with
    status := "completed",
    log := some "done\n",
    modelPath := some "models/model-1.tar.gz",
    finishedAt := some "2026-01-01T00:05:00.000Z" }

/-- Registry holding a non-validated dataset that already has an active
job. -/
def stateUploadedWithActiveJob : SystemState :=
  { datasets := [dsUploaded], jobs := [jobQueued], nextJobId := 11 }

/-- Registry holding a training dataset with its running job. -/
def stateJobTraining : SystemState :=
  { datasets := [dsTraining], jobs := [jobTraining], nextJobId := 11 }

/-- Registry holding a training dataset whose job already completed. -/
def stateJobCompleted : SystemState :=
  { datasets := [dsTraining], jobs := [jobCompleted], nextJobId := 11 }

/-- Registry holding a validated dataset and no jobs. -/
def stateValidated : SystemState :=
  { datasets := [dsValidated], jobs := [], nextJobId := 11 }

/-- Registry holding the uploaded dataset and no jobs. -/
def stateUploadedOnly : SystemState :=
  { datasets := [dsUploaded], jobs := [], nextJobId := 1 }

/-- A terminal success report as the remote trainer delivers it. -/
def termReportBody : JobPatch :=
  { status := some "completed", progress := some 100,
    log := some "Training complete\n",
    modelPath := some "models/model-1.tar.gz",
    finishedAt := some "2026-01-01T00:05:00.000Z" }

/-- A redelivery of the terminal report, differing in log and timestamp
as a later retry of the same callback naturally does. -/
def termReportBody2 : JobPatch :=
  { termReportBody with
    log := some "Training complete (redelivered)\n",
    finishedAt := some "2026-01-01T00:06:00.000Z" }

/-- A progress report carrying progress 30 hundredths (an out-of-order
report: an earlier epoch than the one the job log records). -/
def progressBody30 : JobPatch :=
  { status := some "training", progress := some 30,
    log := some "epoch 2/5\n", modelPath := none, finishedAt := none }

/-- The same report with progress 99 hundredths: identical except for the
delivered progress value. -/
def progressBody99 : JobPatch :=
  { progressBody30 with progress := some 99 }

/-- A terminal success report that carries no finishedAt timestamp, like
the completion callback in the repository integration guide (status and
model path only). -/
def completionNoFinishBody : JobPatch :=
  { status := some "completed", progress := some 100,
    log := some "Training complete\n",
    modelPath := some "models/model-1.tar.gz", finishedAt := none }

/-- A validation report with an empty error array: the success shape. -/
def reportNoErrors : ValidationReport :=
  { errors := some [], isValid := none, success := none, status := none }

/-- A validation report carrying one error: the failure shape. -/
def reportFailed : ValidationReport :=
  { errors := some ["row 3: missing intent"], isValid := none,
    success := none, status := none }

/-! Helper lemmas shared by the claim theorems. -/

/-- The classifier only ever produces one of the twelve intent tags of
the rule chain. -/
lemma detectIntentCore_intent_mem (msg : List Char) :
    (FallbackAI.detectIntentCore msg).intent ∈
      (["mood_tired", "mood_stressed", "mood_excited", "mood_lazy", "mood_adventurous",
        "product_search", "sustainability", "price_filter", "track_order", "greet",
        "help", "general"] : List String) := by
  unfold FallbackAI.detectIntentCore
  cases h1 : FallbackAI.moodTiredKw msg <;> simp [h1]
  cases h2 : FallbackAI.moodStressedKw msg <;> simp [h2]
  cases h3 : FallbackAI.moodExcitedKw msg <;> simp [h3]
  cases h4 : FallbackAI.moodLazyKw msg <;> simp [h4]
  cases h5 : FallbackAI.moodAdventurousKw msg <;> simp [h5]
  cases h6 : FallbackAI.footwearKw msg <;> simp [h6]
  cases h7 : FallbackAI.clothingKw msg <;> simp [h7]
  cases h8 : FallbackAI.electronicsKw msg <;> simp [h8]
  cases h9 : FallbackAI.sustainabilityKw msg <;> simp [h9]
  cases h10 : FallbackAI.priceFilterKw msg <;> simp [h10]
  cases h11 : FallbackAI.trackOrderKw msg <;> simp [h11]
  cases h12 : FallbackAI.greetKw msg <;> simp [h12]
  cases h13 : FallbackAI.helpKw msg <;> simp [h13]

/-- Every branch of `getResponse` except the default one ignores the
randomness parameter. -/
lemma getResponse_shuffle_free (i : String) (e : Entities) (m : String)
    (s1 s2 : List Product → List Product)
    (h : i ≠ "general")
    (hmem : i ∈ (["mood_tired", "mood_stressed", "mood_excited", "mood_lazy",
      "mood_adventurous", "product_search", "sustainability", "price_filter",
      "track_order", "greet", "help", "general"] : List String)) :
    FallbackAI.getResponse i e m s1 = FallbackAI.getResponse i e m s2 := by
  simp only [List.mem_cons, List.mem_singleton] at hmem
  rcases hmem with rfl | rfl | rfl | rfl | rfl | rfl | rfl | rfl | rfl | rfl | rfl | hmem
  · rfl
  · rfl
  · rfl
  · rfl
  · rfl
  · rfl
  · rfl
  · rfl
  · rfl
  · rfl
  · rfl
  · simp at hmem; exact absurd hmem h

/-- Updating the status of the found dataset row commutes with row
lookup. -/
lemma find?_update_status (l : List Dataset) (i : Nat) (now : String) (d : Dataset)
    (hd : l.find? (fun x => x.id == i) = some d) :
    (l.map (fun x => if x.id == i then { x with status := "training", updatedAt := now } else x)).find?
        (fun x => x.id == i)
      = some { d with status := "training", updatedAt := now } := by
  induction l with
  | nil => simp at hd
  | cons y ys ih =>
    cases hy : (y.id == i)
    · rw [List.find?_cons_of_neg _ (by simp [hy])] at hd
      simp only [List.map_cons, hy, Bool.false_eq_true, if_false]
      rw [List.find?_cons_of_neg _ (by simp [hy])]
      exact ih hd
    · rw [@List.find?_cons_of_pos Dataset (fun x => x.id == i) y ys hy] at hd
      injection hd with hd
      subst hd
      simp only [List.map_cons]
      rw [if_pos hy]
      exact @List.find?_cons_of_pos Dataset (fun x => x.id == i) _ _ hy

/-- Runs of the embedded server keep every job with the given id away
from status `failed` as long as no request delivers that status for it:
the only write of `failed` in the whole surface is an explicit PATCH
body. -/
lemma notFailed_invariant_run : ∀ (rs : List Request) (s : SystemState) (jid : Nat),
    (∀ x ∈ s.jobs, x.id = jid → x.status ≠ "failed") →
    (∀ r ∈ rs, reqSetsFailed r jid = false) →
    ∀ x ∈ (run s rs).jobs, x.id = jid → x.status ≠ "failed" := by
  intro rs
  induction rs with
  | nil => intro s jid h0 hr; exact h0
  | cons r rest ih =>
    intro s jid h0 hr
    have hstep : ∀ x ∈ (step s r).jobs, x.id = jid → x.status ≠ "failed" := by
      cases r with
      | tick => exact h0
      | startTraining i now oc =>
        intro x hx hxid
        simp only [step, startTraining] at hx
        rcases hfd : findDataset s i with _ | d
        · rw [hfd] at hx; exact h0 x hx hxid
        · rw [hfd] at hx
          simp only at hx
          rcases List.mem_append.mp hx with hmem | hmem
          · exact h0 x hmem hxid
          · rw [List.mem_singleton.mp hmem]
            simp [newJobFor]
      | patchJob jpid b =>
        intro x hx hxid
        simp only [step, patchTrainingJob] at hx
        rcases hfj : findJob s jpid with _ | j0
        · rw [hfj] at hx; exact h0 x hx hxid
        · rw [hfj] at hx
          simp only at hx
          rcases List.mem_map.mp hx with ⟨y, hy, hxy⟩
          subst hxy
          by_cases hyj : (y.id == jpid) = true
          · rw [if_pos hyj] at hxid ⊢
            have hyid : y.id = jid := hxid
            have hjj : y.id = jpid := by simpa using hyj
            have hj : jpid = jid := by rw [← hjj]; exact hyid
            have hbs : (jpid == jid && b.status == some "failed") = false :=
              hr (.patchJob jpid b) (List.mem_cons_self _ _)
            rw [hj] at hbs
            simp only [beq_self_eq_true, Bool.true_and] at hbs
            cases hbst : b.status with
            | some v =>
              rw [hbst] at hbs
              have hv : v ≠ "failed" := by
                intro hveq
                rw [hveq] at hbs
                simp at hbs
              simpa [applyJobPatch, hbst, Option.getD] using hv
            | none =>
              have hys := h0 y hy hyid
              simpa [applyJobPatch, hbst, Option.getD] using hys
          · rw [if_neg hyj] at hxid ⊢
            exact h0 y hy hxid
      | validate i rep now =>
        intro x hx hxid
        simp only [step, validateDataset] at hx
        rcases hfd : findDataset s i with _ | d
        · rw [hfd] at hx; exact h0 x hx hxid
        · rw [hfd] at hx
          simp only at hx
          exact h0 x hx hxid
    exact ih (step s r) jid hstep (fun r' h' => hr r' (List.mem_cons_of_mem _ h'))

/-- The ascending sort used by the price branch yields a list that is
pairwise ordered by the key. -/
lemma sortAscBy_pairwise (key : Product → Nat) (l : List Product) :
    (sortAscBy key l).Pairwise (fun a b => key a ≤ key b) := by
  haveI h1 : IsTotal Product (fun a b => key a ≤ key b) := ⟨fun a b => Nat.le_total _ _⟩
  haveI h2 : IsTrans Product (fun a b => key a ≤ key b) :=
    ⟨fun a b c hab hbc => Nat.le_trans hab hbc⟩
  exact List.sorted_insertionSort _ l

/-- The ascending sort permutes its input. -/
lemma sortAscBy_perm (key : Product → Nat) (l : List Product) :
    List.Perm (sortAscBy key l) l :=
  List.perm_insertionSort _ l

/-- Evaluation of the price branch of `getResponse`: filter by the
effective ceiling, sort ascending by price, truncate to three, project
into response items at relevance 89. -/
lemma getResponse_price_eq (n : Nat) (m : String) (sh : List Product → List Product) :
    FallbackAI.getResponse "price_filter" (priceEnt n) m sh
      = [⟨"💰 Here are some great options under $" ++ toString (effectiveCeiling n) ++ ":",
          ((sortAscBy (fun p => p.priceCents)
            (FallbackAI.products.filter
              (fun p => p.priceCents ≤ effectiveCeiling n * 100))).take 3).map
            (toRecItem 89)⟩] := rfl

/-- The filter-sort-truncate pipeline of the price branch is sorted, only
contains items under the ceiling, and has the length of the filtered
catalog truncated to three. -/
lemma price_products_spec (l : List Product) (c : Nat) :
    (((sortAscBy (fun p => p.priceCents)
        (l.filter (fun p => p.priceCents ≤ c * 100))).take 3).map
        (toRecItem 89)).Pairwise (fun a b => a.priceCents ≤ b.priceCents)
    ∧ (∀ x ∈ ((sortAscBy (fun p => p.priceCents)
        (l.filter (fun p => p.priceCents ≤ c * 100))).take 3).map (toRecItem 89),
        x.priceCents ≤ c * 100)
    ∧ (((sortAscBy (fun p => p.priceCents)
        (l.filter (fun p => p.priceCents ≤ c * 100))).take 3).map
        (toRecItem 89)).length
      = min 3 (l.filter (fun p => p.priceCents ≤ c * 100)).length := by
  refine ⟨?_, ?_, ?_⟩
  · rw [List.pairwise_map]
    exact List.Pairwise.sublist (List.take_sublist 3 _) (sortAscBy_pairwise _ _)
  · intro x hx
    rcases List.mem_map.mp hx with ⟨p, hp, rfl⟩
    have hp1 : p ∈ sortAscBy (fun p => p.priceCents)
        (l.filter (fun p => p.priceCents ≤ c * 100)) :=
      (List.take_sublist 3 _).subset hp
    have hp2 : p ∈ l.filter (fun p => p.priceCents ≤ c * 100) :=
      (sortAscBy_perm _ _).mem_iff.mp hp1
    have hp3 := (List.mem_filter.mp hp2).2
    simpa using hp3
  · rw [List.length_map, List.length_take, (sortAscBy_perm _ _).length_eq]

/-! Claim theorems. -/

/-- Claim C1, counterexample: on a dataset in status `uploaded` (not
`validated`) that already has a `queued` job, the StartTraining route
succeeds anyway — it creates a second job and moves the dataset to
`training` — instead of failing with PreconditionFailed and leaving the
state unchanged. -/
theorem startTraining_no_precondition_cex :
    dsUploaded.status = "uploaded"
    ∧ dsUploaded.status ≠ "validated"
    ∧ jobQueued.status = "queued"
    ∧ jobQueued.datasetId = dsUploaded.id
    ∧ (startTraining stateUploadedWithActiveJob 1 "2026-01-02T00:00:00.000Z" .delivered).2
        = StartResult.created (newJobFor stateUploadedWithActiveJob 1 7 "2026-01-02T00:00:00.000Z")
    ∧ (startTraining stateUploadedWithActiveJob 1 "2026-01-02T00:00:00.000Z" .delivered).1.jobs.length
        = stateUploadedWithActiveJob.jobs.length + 1
    ∧ (findDataset (startTraining stateUploadedWithActiveJob 1 "2026-01-02T00:00:00.000Z" .delivered).1 1).map
        Dataset.status = some "training" := by
  decide

/-- Claim C1, amended: the StartTraining route checks no precondition at
all — for every existing dataset, whatever its status and whether or not
an active job exists, it inserts a fresh `queued` job and sets the
dataset status to `training`; only a missing dataset fails (404), with
the state unchanged. -/
theorem startTraining_unconditional (s : SystemState) (i : Nat) (now : String)
    (oc : DispatchOutcome) :
    (∀ d, findDataset s i = some d →
        (startTraining s i now oc).2 = .created (newJobFor s i d.workspaceId now)
        ∧ (startTraining s i now oc).1.jobs = s.jobs ++ [newJobFor s i d.workspaceId now]
        ∧ (newJobFor s i d.workspaceId now).status = "queued"
        ∧ (findDataset (startTraining s i now oc).1 i).map Dataset.status = some "training")
    ∧ (findDataset s i = none → startTraining s i now oc = (s, .notFound)) := by
  constructor
  · intro d hd
    refine ⟨by simp [startTraining, hd], by simp [startTraining, hd], rfl, ?_⟩
    simp only [startTraining, hd]
    simp only [findDataset]
    rw [find?_update_status s.datasets i now d hd]
    rfl
  · intro hd
    simp [startTraining, hd]

/-- Claim C1, witness: the amended theorem evaluated on a concrete
one-dataset registry. -/
theorem startTraining_unconditional_witness :
    findDataset stateValidated 1 = some dsValidated
    ∧ ((startTraining stateValidated 1 "2026-01-05T00:00:00.000Z" DispatchOutcome.delivered).2
          = .created (newJobFor stateValidated 1 dsValidated.workspaceId "2026-01-05T00:00:00.000Z")
        ∧ (startTraining stateValidated 1 "2026-01-05T00:00:00.000Z" DispatchOutcome.delivered).1.jobs
          = stateValidated.jobs ++ [newJobFor stateValidated 1 dsValidated.workspaceId "2026-01-05T00:00:00.000Z"]
        ∧ (newJobFor stateValidated 1 dsValidated.workspaceId "2026-01-05T00:00:00.000Z").status = "queued"
        ∧ (findDataset (startTraining stateValidated 1 "2026-01-05T00:00:00.000Z" DispatchOutcome.delivered).1 1).map
            Dataset.status = some "training") :=
  ⟨by decide,
    (startTraining_unconditional stateValidated 1 "2026-01-05T00:00:00.000Z"
      DispatchOutcome.delivered).1 dsValidated (by decide)⟩

/-- Claim C2, counterexample: a terminal report never touches the
dataset (its status stays `training`, not `trained`), and a second
delivery to an already-`completed` job is not a no-op — the differing
redelivery overwrites the stored log and timestamp. -/
theorem reportTerminal_not_idempotent_cex :
    ((patchTrainingJob stateJobTraining 10 termReportBody).1.datasets = stateJobTraining.datasets
      ∧ (findDataset (patchTrainingJob stateJobTraining 10 termReportBody).1 1).map Dataset.status
          = some "training")
    ∧ jobCompleted.status = "completed"
    ∧ (patchTrainingJob stateJobCompleted 10 termReportBody2).1 ≠ stateJobCompleted
    ∧ (findJob (patchTrainingJob stateJobCompleted 10 termReportBody2).1 10).map TrainingJob.log
        = some (some "Training complete (redelivered)\n") := by
  decide

/-- Claim C2, amended: the report ingress applies every delivered report
unconditionally — each matched job row is overwritten field-by-field from
the request body, the datasets table is never read or written, and
redelivery is a no-op only when the payload is value-identical (the
overwrite is idempotent in the body). -/
theorem patch_overwrites_and_never_touches_dataset (s : SystemState) (jid : Nat)
    (b : JobPatch) (j : TrainingJob) (h : findJob s jid = some j) :
    (patchTrainingJob s jid b).1.datasets = s.datasets
    ∧ (patchTrainingJob s jid b).2 = some (applyJobPatch j b)
    ∧ (patchTrainingJob s jid b).1.jobs
        = s.jobs.map (fun x => if x.id == jid then applyJobPatch x b else x)
    ∧ applyJobPatch (applyJobPatch j b) b = applyJobPatch j b := by
  refine ⟨by simp [patchTrainingJob, h], by simp [patchTrainingJob, h],
    by simp [patchTrainingJob, h], ?_⟩
  cases hs : b.status <;> cases hl : b.log <;>
    cases hm : b.modelPath <;> simp [applyJobPatch, hs, hl, hm]

/-- Claim C2, witness: the amended theorem evaluated on a completed job
receiving a redelivered terminal report. -/
theorem patch_overwrites_and_never_touches_dataset_witness :
    findJob stateJobCompleted 10 = some jobCompleted
    ∧ ((patchTrainingJob stateJobCompleted 10 termReportBody2).1.datasets = stateJobCompleted.datasets
        ∧ (patchTrainingJob stateJobCompleted 10 termReportBody2).2
            = some (applyJobPatch jobCompleted termReportBody2)
        ∧ (patchTrainingJob stateJobCompleted 10 termReportBody2).1.jobs
            = stateJobCompleted.jobs.map
                (fun x => if x.id == 10 then applyJobPatch x termReportBody2 else x)
        ∧ applyJobPatch (applyJobPatch jobCompleted termReportBody2) termReportBody2
            = applyJobPatch jobCompleted termReportBody2) :=
  ⟨by decide,
    patch_overwrites_and_never_touches_dataset stateJobCompleted 10 termReportBody2
      jobCompleted (by decide)⟩

/-- Claim C3, counterexample: a progress report is applied even to a job
whose status is `completed` (it drags it back to `training`, so reports
are not accepted only while training); an out-of-order report does not
leave the job unchanged (its log line overwrites the stored one); and the
delivered progress value itself is discarded — two reports differing only
in progress produce the identical stored state, because the jobs table
has no progress column for the claimed monotone progress to live in. -/
theorem progress_discarded_not_noop_cex :
    (findJob stateJobCompleted 10).map TrainingJob.status = some "completed"
    ∧ (findJob (patchTrainingJob stateJobCompleted 10 progressBody30).1 10).map TrainingJob.status
        = some "training"
    ∧ (findJob stateJobTraining 10).map TrainingJob.log = some (some "epoch 4/5\n")
    ∧ (findJob (patchTrainingJob stateJobTraining 10 progressBody30).1 10).map TrainingJob.log
        = some (some "epoch 2/5\n")
    ∧ (patchTrainingJob stateJobTraining 10 progressBody30).1 ≠ stateJobTraining
    ∧ progressBody30.progress = some 30
    ∧ progressBody99.progress = some 99
    ∧ progressBody30 ≠ progressBody99
    ∧ patchTrainingJob stateJobTraining 10 progressBody30
        = patchTrainingJob stateJobTraining 10 progressBody99 := by
  decide

/-- Claim C3, amended: the report ingress accepts a progress report in
every job status, not only `training`, and applies the status and log of
the body unconditionally (so an out-of-order or duplicate report is not a
no-op when those fields differ); the delivered progress value itself is
never persisted — the update drops the body key that matches no column —
so no recorded progress exists, monotone or otherwise. -/
theorem patch_ignores_progress_value (s : SystemState) (jid : Nat) (b : JobPatch)
    (j : TrainingJob) (h : findJob s jid = some j) :
    (patchTrainingJob s jid b).2 = some (applyJobPatch j b)
    ∧ (∀ p : Option Nat, applyJobPatch j { b with progress := p } = applyJobPatch j b)
    ∧ (applyJobPatch j b).status = b.status.getD j.status
    ∧ (applyJobPatch j b).log = (match b.log with | some l => some l | none => j.log) :=
  ⟨by simp [patchTrainingJob, h], fun p => rfl, rfl, rfl⟩

/-- Claim C3, witness: the amended theorem evaluated on the completed job
receiving the out-of-order progress report, with the progress value
replaced by a different one to exhibit the discard. -/
theorem patch_ignores_progress_value_witness :
    findJob stateJobCompleted 10 = some jobCompleted
    ∧ (patchTrainingJob stateJobCompleted 10 progressBody30).2
        = some (applyJobPatch jobCompleted progressBody30)
    ∧ applyJobPatch jobCompleted { progressBody30 with progress := some 99 }
        = applyJobPatch jobCompleted progressBody30
    ∧ (applyJobPatch jobCompleted progressBody30).status
        = progressBody30.status.getD jobCompleted.status :=
  ⟨by decide,
    (patch_ignores_progress_value stateJobCompleted 10 progressBody30 jobCompleted
      (by decide)).1,
    (patch_ignores_progress_value stateJobCompleted 10 progressBody30 jobCompleted
      (by decide)).2.1 (some 99),
    (patch_ignores_progress_value stateJobCompleted 10 progressBody30 jobCompleted
      (by decide)).2.2.1⟩

/-- Claim C4: the validate route computes the statuses `valid` and
`invalid` — not `validated` and `error` — and stores them on the dataset.
Both strings lie outside the lifecycle enum of the data model and outside
the repository constant VALID_STATUSES that the dataset update routes
enforce, so the route contradicts the declared status set of its own
codebase. -/
theorem validate_writes_out_of_enum_status :
    computeValidationStatus reportNoErrors = "valid"
    ∧ computeValidationStatus reportFailed = "invalid"
    ∧ "valid" ∉ specDatasetStatuses ∧ "invalid" ∉ specDatasetStatuses
    ∧ "valid" ∉ VALID_STATUSES ∧ "invalid" ∉ VALID_STATUSES
    ∧ (findDataset (validateDataset stateUploadedOnly 1 reportNoErrors "2026-01-03T00:00:00.000Z").1 1).map
        Dataset.status = some "valid" := by
  decide

/-- Claim C5, counterexample: a terminal report without finishedAt (the
shape the repository integration guide itself shows for the completion
callback) leaves the job `completed` with no finishedAt, violating the
claimed record invariant; job creation, by contrast, satisfies it. -/
theorem finishedAt_invariant_not_preserved_cex :
    jobInvariant jobCompleted
    ∧ (findJob (patchTrainingJob stateJobTraining 10 completionNoFinishBody).1 10)
        = some (applyJobPatch jobTraining completionNoFinishBody)
    ∧ (applyJobPatch jobTraining completionNoFinishBody).status = "completed"
    ∧ (applyJobPatch jobTraining completionNoFinishBody).finishedAt = none
    ∧ ¬ jobInvariant (applyJobPatch jobTraining completionNoFinishBody) := by
  decide

/-- Claim C5, amended: job creation establishes the invariant (a fresh
job is `queued` with no finishedAt and no modelPath), but the update
ingress stores the body fields verbatim with no consistency check, so the
invariant survives an update only when the payload itself respects it. -/
theorem creation_meets_invariant_update_unguarded :
    (∀ (s : SystemState) (i ws : Nat) (now : String), jobInvariant (newJobFor s i ws now))
    ∧ (∀ (j : TrainingJob) (b : JobPatch),
        (applyJobPatch j b).finishedAt = b.finishedAt
        ∧ (applyJobPatch j b).status = b.status.getD j.status
        ∧ (applyJobPatch j b).modelPath
            = (match b.modelPath with | some m => some m | none => j.modelPath)) := by
  constructor
  · intro s i ws now
    simp [jobInvariant, newJobFor]
  · intro j b
    exact ⟨rfl, rfl, rfl⟩

/-- Claim C6, counterexample: when the dispatch of the start request to
the remote trainer fails with a transport error, the state is exactly the
one of a successful dispatch — the new job stays `queued` with its
creation log, it is not transitioned to `failed` and no transport error
is recorded. -/
theorem dispatch_failure_ignored_cex :
    startTraining stateValidated 1 "2026-01-02T00:00:00.000Z"
        (.transportError "fetch failed: connect ECONNREFUSED 127.0.0.1:8000")
      = startTraining stateValidated 1 "2026-01-02T00:00:00.000Z" .delivered
    ∧ (findJob (startTraining stateValidated 1 "2026-01-02T00:00:00.000Z"
        (.transportError "fetch failed: connect ECONNREFUSED 127.0.0.1:8000")).1 11).map
          TrainingJob.status = some "queued"
    ∧ (findJob (startTraining stateValidated 1 "2026-01-02T00:00:00.000Z"
        (.transportError "fetch failed: connect ECONNREFUSED 127.0.0.1:8000")).1 11).map
          TrainingJob.log = some (some creationLog) := by
  decide

/-- Claim C6, amended: the dispatch is attempted once, fire-and-forget;
its outcome, error text included, has no influence on the stored state —
there is no retry, no backoff and no degradation of the job to `failed`
at dispatch time, and the created job keeps status `queued` with the
fixed creation log. -/
theorem dispatch_outcome_irrelevant (s : SystemState) (i : Nat) (now e : String)
    (oc : DispatchOutcome) :
    startTraining s i now (.transportError e) = startTraining s i now oc
    ∧ (∀ d, findDataset s i = some d →
        (startTraining s i now (.transportError e)).2
            = .created (newJobFor s i d.workspaceId now)
        ∧ (newJobFor s i d.workspaceId now).status = "queued"
        ∧ (newJobFor s i d.workspaceId now).log = some creationLog) := by
  refine ⟨rfl, ?_⟩
  intro d hd
  exact ⟨by simp [startTraining, hd], rfl, rfl⟩

/-- Claim C6, witness: the amended theorem evaluated on the validated
dataset with a concrete connection-refused transport error. -/
theorem dispatch_outcome_irrelevant_witness :
    findDataset stateValidated 1 = some dsValidated
    ∧ startTraining stateValidated 1 "2026-01-06T00:00:00.000Z"
          (.transportError "fetch failed: connect ECONNREFUSED 127.0.0.1:8000")
        = startTraining stateValidated 1 "2026-01-06T00:00:00.000Z" DispatchOutcome.delivered
    ∧ ((startTraining stateValidated 1 "2026-01-06T00:00:00.000Z"
          (.transportError "fetch failed: connect ECONNREFUSED 127.0.0.1:8000")).2
          = .created (newJobFor stateValidated 1 dsValidated.workspaceId "2026-01-06T00:00:00.000Z")
        ∧ (newJobFor stateValidated 1 dsValidated.workspaceId "2026-01-06T00:00:00.000Z").status = "queued"
        ∧ (newJobFor stateValidated 1 dsValidated.workspaceId "2026-01-06T00:00:00.000Z").log
            = some creationLog) :=
  ⟨by decide,
    (dispatch_outcome_irrelevant stateValidated 1 "2026-01-06T00:00:00.000Z"
      "fetch failed: connect ECONNREFUSED 127.0.0.1:8000" DispatchOutcome.delivered).1,
    (dispatch_outcome_irrelevant stateValidated 1 "2026-01-06T00:00:00.000Z"
      "fetch failed: connect ECONNREFUSED 127.0.0.1:8000" DispatchOutcome.delivered).2
      dsValidated (by decide)⟩

/-- Claim C7, counterexample: a job in `training` that receives no
request at all stays in `training` and its dataset stays `training`,
however much time passes — no reaper transitions it to `failed`. -/
theorem no_reaper_stale_job_persists_cex :
    jobTraining.status = "training"
    ∧ run stateJobTraining (List.replicate 50 Request.tick) = stateJobTraining
    ∧ (findJob stateJobTraining 10).map TrainingJob.status = some "training"
    ∧ (findDataset stateJobTraining 1).map Dataset.status = some "training"
    ∧ "training" ≠ "failed" ∧ "training" ≠ "error" := by
  decide

/-- Claim C7, amended: no stale-job reaper exists; the passage of time
changes nothing and a job reaches status `failed` only when some external
request explicitly delivers that status for it — under any request
sequence free of such a PATCH, every job with the given id stays away
from `failed`. -/
theorem job_fails_only_by_explicit_patch (s : SystemState) (rs : List Request) (jid : Nat)
    (h0 : ∀ x ∈ s.jobs, x.id = jid → x.status ≠ "failed")
    (hr : ∀ r ∈ rs, reqSetsFailed r jid = false) :
    ∀ x ∈ (run s rs).jobs, x.id = jid → x.status ≠ "failed" :=
  notFailed_invariant_run rs s jid h0 hr

/-- Claim C7, witness: the amended theorem evaluated on a run mixing
ticks and a benign progress PATCH. -/
theorem job_fails_only_by_explicit_patch_witness :
    (∀ x ∈ stateJobTraining.jobs, x.id = 10 → x.status ≠ "failed")
    ∧ (∀ r ∈ ([Request.tick,
          Request.patchJob 10
            { status := some "training", progress := some 90,
              log := some "epoch 5/5\n", modelPath := none, finishedAt := none },
          Request.tick] : List Request), reqSetsFailed r 10 = false)
    ∧ (∀ x ∈ (run stateJobTraining
          [Request.tick,
            Request.patchJob 10
              { status := some "training", progress := some 90,
                log := some "epoch 5/5\n", modelPath := none, finishedAt := none },
            Request.tick]).jobs, x.id = 10 → x.status ≠ "failed") :=
  ⟨by decide, by decide,
    job_fails_only_by_explicit_patch stateJobTraining
      [Request.tick,
        Request.patchJob 10
          { status := some "training", progress := some 90,
            log := some "epoch 5/5\n", modelPath := none, finishedAt := none },
        Request.tick] 10 (by decide) (by decide)⟩

/-- Claim C8: the fallback engine is deterministic on every branch except
the default `general` one — for an utterance whose detected intent is not
`general`, the response is independent of the injected randomness source
(the only consumer of it is the default branch), and the utterance about
tracking an order classifies as `track_order` with no state carried
between calls (classification and response are pure functions). -/
theorem fallback_deterministic_off_general (m : String)
    (s1 s2 : List Product → List Product)
    (h : (FallbackAI.detectIntent m).intent ≠ "general") :
    FallbackAI.processMessage m s1 = FallbackAI.processMessage m s2
    ∧ FallbackAI.detectIntent "track my order" = ⟨"track_order", noEnt⟩ := by
  refine ⟨?_, by decide⟩
  have hm := detectIntentCore_intent_mem (lowerChars m)
  unfold FallbackAI.processMessage
  exact getResponse_shuffle_free (FallbackAI.detectIntent m).intent
    (FallbackAI.detectIntent m).entities m s1 s2 h hm

/-- Claim C8, witness: the determinism theorem evaluated on a greeting
with two different randomness sources. -/
theorem fallback_deterministic_off_general_witness :
    (FallbackAI.detectIntent "hello").intent ≠ "general"
    ∧ (FallbackAI.processMessage "hello" id = FallbackAI.processMessage "hello" List.reverse
        ∧ FallbackAI.detectIntent "track my order" = ⟨"track_order", noEnt⟩) :=
  ⟨by decide, fallback_deterministic_off_general "hello" id List.reverse (by decide)⟩

/-- Claim C9, counterexample: the utterance with keyword cheap and digit
run 0 classifies as price_filter with extracted ceiling 0; no product is
priced at or below 0, yet the engine recommends three products (the falsy
default replaces the 0 ceiling by 100), so the recommendations are not
the products priced at or below the extracted ceiling. -/
theorem price_filter_zero_ceiling_cex :
    FallbackAI.detectIntent "cheap 0" = ⟨"price_filter", priceEnt 0⟩
    ∧ FallbackAI.products.filter (fun p => p.priceCents ≤ 0 * 100) = []
    ∧ (FallbackAI.processMessage "cheap 0" id).map (fun r => r.products.map RecItem.id)
        = [["prod_8", "prod_6", "prod_1"]] := by
  decide

/-- Claim C9, amended: for every utterance classified as price_filter the
extracted maximum price is the value of the first digit run (100 when no
digit occurs), and the recommendations are the products priced at or
below the effective ceiling — the extracted price, except that an
extracted price of 0 falls back to 100 like an absent one — sorted
ascending by price and truncated to three. -/
theorem price_filter_amended (message : String) (shuffle : List Product → List Product)
    (h1 : beforePriceRule (lowerChars message) = false)
    (h2 : FallbackAI.priceFilterKw (lowerChars message) = true) :
    FallbackAI.detectIntent message
        = ⟨"price_filter", priceEnt (extractedPrice (lowerChars message))⟩
    ∧ (firstDigitRun (lowerChars message) = none → extractedPrice (lowerChars message) = 100)
    ∧ ∀ r ∈ FallbackAI.processMessage message shuffle,
        r.products
            = ((sortAscBy (fun p => p.priceCents)
                (FallbackAI.products.filter (fun p => p.priceCents ≤
                  effectiveCeiling (extractedPrice (lowerChars message)) * 100))).take 3).map
                (toRecItem 89)
        ∧ r.products.Pairwise (fun a b => a.priceCents ≤ b.priceCents)
        ∧ (∀ x ∈ r.products,
            x.priceCents ≤ effectiveCeiling (extractedPrice (lowerChars message)) * 100)
        ∧ r.products.length = min 3 ((FallbackAI.products.filter
            (fun p => p.priceCents ≤
              effectiveCeiling (extractedPrice (lowerChars message)) * 100)).length) := by
  have hdet : FallbackAI.detectIntent message
      = ⟨"price_filter", priceEnt (extractedPrice (lowerChars message))⟩ := by
    simp_all [FallbackAI.detectIntent, FallbackAI.detectIntentCore, beforePriceRule]
  refine ⟨hdet, ?_, ?_⟩
  · intro h
    simp [extractedPrice, h]
  · intro r hr
    have hpm : FallbackAI.processMessage message shuffle
        = FallbackAI.getResponse "price_filter"
            (priceEnt (extractedPrice (lowerChars message))) message shuffle := by
      unfold FallbackAI.processMessage
      rw [hdet]
    rw [hpm, getResponse_price_eq] at hr
    simp only [List.mem_singleton] at hr
    subst hr
    have hspec := price_products_spec FallbackAI.products
      (effectiveCeiling (extractedPrice (lowerChars message)))
    exact ⟨rfl, hspec.1, hspec.2.1, hspec.2.2⟩

/-- Claim C9, witness: the amended theorem evaluated on the utterance
with keyword under and digit run 50. -/
theorem price_filter_amended_witness :
    beforePriceRule (lowerChars "under 50") = false
    ∧ FallbackAI.priceFilterKw (lowerChars "under 50") = true
    ∧ (FallbackAI.detectIntent "under 50"
          = ⟨"price_filter", priceEnt (extractedPrice (lowerChars "under 50"))⟩
        ∧ (firstDigitRun (lowerChars "under 50") = none →
            extractedPrice (lowerChars "under 50") = 100)
        ∧ ∀ r ∈ FallbackAI.processMessage "under 50" id,
            r.products
                = ((sortAscBy (fun p => p.priceCents)
                    (FallbackAI.products.filter (fun p => p.priceCents ≤
                      effectiveCeiling (extractedPrice (lowerChars "under 50")) * 100))).take 3).map
                    (toRecItem 89)
            ∧ r.products.Pairwise (fun a b => a.priceCents ≤ b.priceCents)
            ∧ (∀ x ∈ r.products,
                x.priceCents ≤ effectiveCeiling (extractedPrice (lowerChars "under 50")) * 100)
            ∧ r.products.length = min 3 ((FallbackAI.products.filter
                (fun p => p.priceCents ≤
                  effectiveCeiling (extractedPrice (lowerChars "under 50")) * 100)).length)) :=
  ⟨by decide, by decide, price_filter_amended "under 50" id (by decide) (by decide)⟩

/-- Claim C10: keyword matching is substring containment on the
lowercased utterance, not word-boundary matching — any utterance that
matches no earlier rule and contains the two characters hi anywhere
classifies as `greet`, any such utterance containing order classifies as
`track_order`, and in particular this, china and border classify as
`greet`, `greet` and `track_order`. -/
theorem keyword_substring_matching :
    (∀ m : String, beforeGreetRule (lowerChars m) = false →
        includes (lowerChars m) "hi" = true →
        FallbackAI.detectIntent m = ⟨"greet", noEnt⟩)
    ∧ (∀ m : String, beforeTrackRule (lowerChars m) = false →
        includes (lowerChars m) "order" = true →
        FallbackAI.detectIntent m = ⟨"track_order", noEnt⟩)
    ∧ FallbackAI.detectIntent "this" = ⟨"greet", noEnt⟩
    ∧ FallbackAI.detectIntent "china" = ⟨"greet", noEnt⟩
    ∧ FallbackAI.detectIntent "border" = ⟨"track_order", noEnt⟩ := by
  refine ⟨?_, ?_, by decide, by decide, by decide⟩
  · intro m h1 h2
    simp_all [FallbackAI.detectIntent, FallbackAI.detectIntentCore, beforeGreetRule,
      beforeTrackRule, beforePriceRule, FallbackAI.greetKw, h2]
  · intro m h1 h2
    simp_all [FallbackAI.detectIntent, FallbackAI.detectIntentCore, beforeGreetRule,
      beforeTrackRule, beforePriceRule, FallbackAI.trackOrderKw, h2]

/-- Claim C10, witness: the universal greeting part evaluated on a
concrete utterance containing hi inside a larger phrase. -/
theorem keyword_substring_matching_witness :
    beforeGreetRule (lowerChars "say hi there") = false
    ∧ includes (lowerChars "say hi there") "hi" = true
    ∧ FallbackAI.detectIntent "say hi there" = ⟨"greet", noEnt⟩ :=
  ⟨by decide, by decide, keyword_substring_matching.1 "say hi there" (by decide) (by decide)⟩

end EchoCart
